import Mathlib

/-!
Shallow embedding of the native-handle object bridge of PROJ-JNI
(`src/main/cpp/bindings.cpp`), and proofs about it.

Conventions of the embedding:
* `jlong` handles are natural numbers; the value `0` is the null handle.
* A native `BaseObject` is identified by a `NativeRef` (its address); the
  native `use_count` bookkeeping of `std::shared_ptr` is modelled by an
  explicit per-object reference count in the heap.
* The heap of indirection blocks allocated by `wrap_shared_ptr` is an
  association list from block address to the stored shared reference.
  `calloc` returns the next fresh address on success; allocation failure
  is an explicit boolean input.
* JNI calls are modelled by explicit state passing over a `JNIEnvState`
  carrying the pending Java exception, plus oracle functions for the
  managed-side callbacks (`findWrapper`, `wrapGeodeticObject`) and for
  class lookups (`FindClass`).
-/

namespace ProjJNI

/-- Identity of a native (PROJ) object: the raw `BaseObject*` address. -/
abbrev NativeRef := Nat

/-- A `jlong` handle: `0` is null, otherwise the address of an indirection block. -/
abbrev Handle := Nat

/-- The native-side heap: the set of live indirection blocks allocated by
`wrap_shared_ptr`, the native `use_count` of every object, the next address
`calloc` would return, and the next address a native constructor would return. -/
structure Heap where
  blocks : List (Handle × NativeRef)
  refcount : NativeRef → Nat
  nextAddr : Handle
  nextRef : NativeRef

/-- Look up the shared reference stored in the block at address `ptr`. -/
def lookupBlock : List (Handle × NativeRef) → Handle → Option NativeRef
  | [], _ => none
  | (a, r) :: rest, ptr => if a = ptr then some r else lookupBlock rest ptr

/-- Remove the block at address `ptr` (the effect of `free`). -/
def removeBlock : List (Handle × NativeRef) → Handle → List (Handle × NativeRef)
  | [], _ => []
  | (a, r) :: rest, ptr => if a = ptr then rest else (a, r) :: removeBlock rest ptr

/-- `wrap_shared_ptr` (bindings.cpp:401): copies the shared pointer into a
freshly `calloc`-ed block and returns the block address. The assignment into
the block increases the object's `use_count` by one. On allocation failure
(`allocOk = false`, i.e. `calloc` returned null) the function returns `0`
and the use count is unchanged. -/
def wrap_shared_ptr (s : Heap) (object : NativeRef) (allocOk : Bool) : Handle × Heap :=
  if allocOk then
    (s.nextAddr,
     { blocks := (s.nextAddr, object) :: s.blocks
       refcount := fun r => if r = object then s.refcount r + 1 else s.refcount r
       nextAddr := s.nextAddr + 1
       nextRef := s.nextRef })
  else (0, s)

/-- `unwrap_shared_ptr` (bindings.cpp:418): dereferences the block at `ptr`
and returns (a copy of) the shared pointer stored there. It is a pure read:
it does not modify the heap, the block, or the stored reference. The C++
contract requires `ptr` to be non-null and live; a stale or null handle is
modelled by the `none` result. -/
def unwrap_shared_ptr (s : Heap) (ptr : Handle) : Option NativeRef :=
  lookupBlock s.blocks ptr

/-- `release_shared_ptr` (bindings.cpp:432): if `ptr` is non-zero, clears the
stored reference (`*wrapper = nullptr`, which decreases the object's
`use_count` by one) and frees the block. Does nothing on a null handle.
A `ptr` that is non-zero but no longer a live block is undefined behaviour
in C++ (double free); the model leaves the heap unchanged in that case,
which is never exercised under the handle discipline. -/
def release_shared_ptr (s : Heap) (ptr : Handle) : Heap :=
  if ptr = 0 then s
  else
    match lookupBlock s.blocks ptr with
    | some r =>
        { blocks := removeBlock s.blocks ptr
          refcount := fun q => if q = r then s.refcount q - 1 else s.refcount q
          nextAddr := s.nextAddr
          nextRef := s.nextRef }
    | none => s

/-- A managed wrapper object, holding the single `ptr` field that stores the
handle of its indirection block (`java_field_for_pointer`). -/
structure JavaWrapper where
  ptrField : Handle
  deriving DecidableEq, Repr

/-- `get_and_clear_ptr` (bindings.cpp:454): reads the `ptr` field of the Java
object and sets the field to zero, returning the old value. -/
def get_and_clear_ptr (object : JavaWrapper) : Handle × JavaWrapper :=
  (object.ptrField, { ptrField := 0 })

/-- `Java_org_osgeo_proj_SharedPointer_release` (bindings.cpp:1601): reads and
zeroes the wrapper's `ptr` field, then releases the indirection block. -/
def Java_org_osgeo_proj_SharedPointer_release (s : Heap) (object : JavaWrapper) :
    Heap × JavaWrapper :=
  let pc := get_and_clear_ptr object
  (release_shared_ptr s pc.1, pc.2)

/-! ### The polymorphic type resolver (`specific_subclass` cascade) -/

/-- The closed enumeration of type codes (`org_osgeo_proj_Type_*` constants of
the generated `org_osgeo_proj_Type.h` header, one per Java `Type` constant). -/
inductive Tag where
  | ANY
  | COORDINATE_REFERENCE_SYSTEM
  | COMPOUND_CRS
  | PROJECTED_CRS
  | GEOGRAPHIC_CRS
  | VERTICAL_CRS
  | TEMPORAL_CRS
  | ENGINEERING_CRS
  | GEODETIC_CRS
  | GEOCENTRIC_CRS
  | DATUM
  | GEODETIC_REFERENCE_FRAME
  | VERTICAL_REFERENCE_FRAME
  | TEMPORAL_DATUM
  | ENGINEERING_DATUM
  | ELLIPSOID
  | PRIME_MERIDIAN
  | COORDINATE_SYSTEM
  | CARTESIAN_CS
  | SPHERICAL_CS
  | ELLIPSOIDAL_CS
  | VERTICAL_CS
  | TEMPORAL_CS
  | AXIS
  | COORDINATE_OPERATION
  | CONVERSION
  | TRANSFORMATION
  | OPERATION_METHOD
  | UNIT_OF_MEASURE
  | IDENTIFIER
  deriving DecidableEq, Repr

/-- The capability set of a native object: the outcome of each `dynamic_cast`
performed by the `specific_subclass` cascade (bindings.cpp:588..641), plus
`GeodeticCRS::isGeocentric()`. -/
structure Caps where
  isCRS : Bool
  isDatum : Bool
  isEllipsoid : Bool
  isPrimeMeridian : Bool
  isCoordinateSystem : Bool
  isAxis : Bool
  isCoordinateOperation : Bool
  isOperationMethod : Bool
  isUnitOfMeasure : Bool
  isIdentifier : Bool
  isConversion : Bool
  isTransformationOp : Bool
  isCompoundCRS : Bool
  isProjectedCRS : Bool
  isGeographicCRS : Bool
  isVerticalCRS : Bool
  isTemporalCRS : Bool
  isEngineeringCRS : Bool
  isGeodeticCRS : Bool
  isGeocentric : Bool
  isCartesianCS : Bool
  isSphericalCS : Bool
  isEllipsoidalCS : Bool
  isVerticalCS : Bool
  isTemporalCS : Bool
  isGeodeticFrame : Bool
  isVerticalFrame : Bool
  isTemporalDatum : Bool
  isEngineeringDatum : Bool
  deriving DecidableEq, Repr

/-- One execution of the `switch (type)` of `specific_subclass`
(bindings.cpp:588..641) for a non-`ANY` tag: each listed case refines the
tag once and leaves the switch (`break`); a tag with no case leaves the
switch with the tag unchanged. -/
def resolveStep (caps : Caps) (type : Tag) : Tag :=
  match type with
  | .COORDINATE_OPERATION =>
         if caps.isConversion       then .CONVERSION
    else if caps.isTransformationOp then .TRANSFORMATION
    else .COORDINATE_OPERATION
  | .COORDINATE_REFERENCE_SYSTEM =>
         if caps.isCompoundCRS    then .COMPOUND_CRS
    else if caps.isProjectedCRS   then .PROJECTED_CRS
    else if caps.isGeographicCRS  then .GEOGRAPHIC_CRS
    else if caps.isVerticalCRS    then .VERTICAL_CRS
    else if caps.isTemporalCRS    then .TEMPORAL_CRS
    else if caps.isEngineeringCRS then .ENGINEERING_CRS
    else if caps.isGeodeticCRS then
      (if caps.isGeocentric then .GEOCENTRIC_CRS else .GEODETIC_CRS)
    else .COORDINATE_REFERENCE_SYSTEM
  | .COORDINATE_SYSTEM =>
         if caps.isCartesianCS   then .CARTESIAN_CS
    else if caps.isSphericalCS   then .SPHERICAL_CS
    else if caps.isEllipsoidalCS then .ELLIPSOIDAL_CS
    else if caps.isVerticalCS    then .VERTICAL_CS
    else if caps.isTemporalCS    then .TEMPORAL_CS
    else .COORDINATE_SYSTEM
  | .DATUM =>
         if caps.isGeodeticFrame    then .GEODETIC_REFERENCE_FRAME
    else if caps.isVerticalFrame    then .VERTICAL_REFERENCE_FRAME
    else if caps.isTemporalDatum    then .TEMPORAL_DATUM
    else if caps.isEngineeringDatum then .ENGINEERING_DATUM
    else .DATUM
  | t => t

/-- The `again:` decision cascade of `specific_subclass` (bindings.cpp:588):
the `ANY` case dispatches to a top-level category and jumps back to the same
switch (`goto again`) with the new, never-again-`ANY` tag — that re-entry is
the `resolveStep` switch above. A non-`ANY` entry tag runs the switch once. -/
def resolve (caps : Caps) (type : Tag) : Tag :=
  match type with
  | .ANY =>
         if caps.isCRS                 then resolveStep caps .COORDINATE_REFERENCE_SYSTEM
    else if caps.isDatum               then resolveStep caps .DATUM
    else if caps.isEllipsoid           then resolveStep caps .ELLIPSOID
    else if caps.isPrimeMeridian       then resolveStep caps .PRIME_MERIDIAN
    else if caps.isCoordinateSystem    then resolveStep caps .COORDINATE_SYSTEM
    else if caps.isAxis                then resolveStep caps .AXIS
    else if caps.isCoordinateOperation then resolveStep caps .COORDINATE_OPERATION
    else if caps.isOperationMethod     then resolveStep caps .OPERATION_METHOD
    else if caps.isUnitOfMeasure       then resolveStep caps .UNIT_OF_MEASURE
    else if caps.isIdentifier          then resolveStep caps .IDENTIFIER
    else .ANY
  | t => resolveStep caps t

/-- The parent of a tag in the type lattice implemented by the cascade:
a specific CRS kind refines `COORDINATE_REFERENCE_SYSTEM` (geocentric refines
geodetic, which refines CRS), specific datums refine `DATUM`, specific
coordinate systems refine `COORDINATE_SYSTEM`, conversions and
transformations refine `COORDINATE_OPERATION`, and every top-level category
refines `ANY`. -/
def parentTag : Tag → Tag
  | .ANY => .ANY
  | .GEOCENTRIC_CRS => .GEODETIC_CRS
  | .COMPOUND_CRS => .COORDINATE_REFERENCE_SYSTEM
  | .PROJECTED_CRS => .COORDINATE_REFERENCE_SYSTEM
  | .GEOGRAPHIC_CRS => .COORDINATE_REFERENCE_SYSTEM
  | .VERTICAL_CRS => .COORDINATE_REFERENCE_SYSTEM
  | .TEMPORAL_CRS => .COORDINATE_REFERENCE_SYSTEM
  | .ENGINEERING_CRS => .COORDINATE_REFERENCE_SYSTEM
  | .GEODETIC_CRS => .COORDINATE_REFERENCE_SYSTEM
  | .CONVERSION => .COORDINATE_OPERATION
  | .TRANSFORMATION => .COORDINATE_OPERATION
  | .CARTESIAN_CS => .COORDINATE_SYSTEM
  | .SPHERICAL_CS => .COORDINATE_SYSTEM
  | .ELLIPSOIDAL_CS => .COORDINATE_SYSTEM
  | .VERTICAL_CS => .COORDINATE_SYSTEM
  | .TEMPORAL_CS => .COORDINATE_SYSTEM
  | .GEODETIC_REFERENCE_FRAME => .DATUM
  | .VERTICAL_REFERENCE_FRAME => .DATUM
  | .TEMPORAL_DATUM => .DATUM
  | .ENGINEERING_DATUM => .DATUM
  | _ => .ANY

/-- `t` is inside the subtree of `u`: equal to `u` or reachable from `t` by
walking parents (the lattice has depth at most 3:
`GEOCENTRIC_CRS → GEODETIC_CRS → COORDINATE_REFERENCE_SYSTEM → ANY`). -/
def refines (t u : Tag) : Bool :=
  t == u || parentTag t == u || parentTag (parentTag t) == u
    || parentTag (parentTag (parentTag t)) == u

/-! ### JNI environment, exception translation, and `specific_subclass` -/

/-- Java exception class names used by the bindings (bindings.cpp:301..310). -/
def JPJ_FACTORY_EXCEPTION : String := "org/opengis/util/FactoryException"

def JPJ_NO_SUCH_AUTHORITY_CODE : String := "org/opengis/referencing/NoSuchAuthorityCodeException"

def JPJ_TRANSFORM_EXCEPTION : String := "org/opengis/referencing/operation/TransformException"

def JPJ_UNFORMATTABLE_EXCEPTION : String := "org/osgeo/proj/UnformattableObjectException"

def JPJ_ILLEGAL_ARGUMENT_EXCEPTION : String := "java/lang/IllegalArgumentException"

/-- A Java throwable as the bindings construct them: a plain exception built
from a class name and a message, the three-argument
`NoSuchAuthorityCodeException(message, authority, code)`, or the error JNI
itself raises when `FindClass` fails. -/
inductive JavaThrowable where
  | generic (className : String) (message : String)
  | noSuchAuthorityCode (message : String) (authority : String) (code : String)
  | noClassDef (className : String)
  deriving DecidableEq, Repr

/-- The JNI environment: the pending Java exception (none if no failure is
pending), and the class-lookup oracle (`FindClass` succeeds on `className`
iff `classKnown className`). -/
structure JNIEnvState where
  pending : Option JavaThrowable
  classKnown : String → Bool

/-- `env->FindClass` followed by `env->ThrowNew` (no pending-exception check):
models the raw JNI throw used where the bindings do not guard with
`ExceptionCheck`. If the class is not found, JNI throws its own error. -/
def throwNew (env : JNIEnvState) (className message : String) : JNIEnvState :=
  if env.classKnown className then
    { env with pending := some (.generic className message) }
  else
    { env with pending := some (.noClassDef className) }

/-- `rethrow_as_java_exception` (bindings.cpp:560): rethrows a C++ exception
as a Java exception with the same message. If a Java exception is already
pending, this function does nothing; otherwise it looks the class up and
throws (if the class was not found, the appropriate Java exception is thrown
by JNI itself). -/
def rethrow_as_java_exception (env : JNIEnvState) (type : String) (e : String) : JNIEnvState :=
  if env.pending.isSome then env
  else throwNew env type e

/-- The C++ `NoSuchAuthorityCodeException` thrown by the PROJ library,
carrying the authority name and the authority code. -/
structure NoSuchAuthorityCodeException where
  message : String
  authority : String
  code : String
  deriving DecidableEq, Repr

/-- The `rethrow_as_java_exception(env, const NoSuchAuthorityCodeException&)`
overload (bindings.cpp:2330): builds a Java `NoSuchAuthorityCodeException`
with the same message, authority name and authority code, and throws it.
Unlike the generic overload above, it performs NO `ExceptionCheck` before
throwing: `FindClass`, `GetMethodID`, `NewObject` and `Throw` run
unconditionally (method lookup and construction are modelled as succeeding
whenever the class is known; if any lookup fails, JNI throws its own error,
as the code's closing comment notes). -/
def rethrow_as_java_exception_noSuchAuthorityCode (env : JNIEnvState)
    (e : NoSuchAuthorityCodeException) : JNIEnvState :=
  if env.classKnown JPJ_NO_SUCH_AUTHORITY_CODE then
    { env with pending := some (.noSuchAuthorityCode e.message e.authority e.code) }
  else
    { env with pending := some (.noClassDef JPJ_NO_SUCH_AUTHORITY_CODE) }

/-- A managed (Java) object reference; `jobject` null is `Option.none`. -/
abbrev JRef := Nat

/-- The managed-side callbacks invoked by `specific_subclass`: the identity
cache `findWrapper(rawPointer)` and the factory `wrapGeodeticObject(type,
ptr)`. Each call may leave a Java exception pending (first component) and
returns a possibly-null wrapper (second component); both are functions of
their arguments, as the Java methods are consulted with exactly these. -/
structure JavaCallbacks where
  findWrapper : NativeRef → Option JavaThrowable × Option JRef
  wrapGeodeticObject : Tag → Handle → Option JavaThrowable × Option JRef

/-- `specific_subclass` (bindings.cpp:581): wraps a PROJ object in the most
specific Java wrapper. It first consults the identity cache
(`findWrapper`) with the object's raw pointer; on a pending exception it
returns null; if a wrapper was found it is returned as-is. Otherwise the
decision cascade resolves the most specific type tag, a new indirection
block is allocated (`wrap_shared_ptr`), and `wrapGeodeticObject` is invoked;
if that call throws or returns null, the block is released again (rollback)
and null is returned. -/
def specific_subclass (cb : JavaCallbacks) (env : JNIEnvState) (s : Heap)
    (object : NativeRef) (caps : Caps) (type : Tag) (allocOk : Bool) :
    Option JRef × JNIEnvState × Heap :=
  let fr := cb.findWrapper object
  let env1 : JNIEnvState := { env with pending := env.pending.orElse (fun _ => fr.1) }
  if env1.pending.isSome then (none, env1, s)
  else
    match fr.2 with
    | some result => (some result, env1, s)
    | none =>
        let t := resolve caps type
        let ws := wrap_shared_ptr s object allocOk
        if ws.1 ≠ 0 then
          let wr := cb.wrapGeodeticObject t ws.1
          let env2 : JNIEnvState := { env1 with pending := env1.pending.orElse (fun _ => wr.1) }
          if env2.pending.isSome || wr.2.isNone then
            (none, env2, release_shared_ptr ws.2 ws.1)
          else (wr.2, env2, ws.2)
        else (none, env1, ws.2)

/-! ### Context and its lazily created database context (shared sub-resource) -/

/-- The Java `Context` object: its `ptr` field (the `PJ_CONTEXT` address) and
its `database` field (handle of the wrapped `DatabaseContext`, 0 if not yet
created). -/
structure JContext where
  ptr : Handle
  database : Handle
  deriving DecidableEq, Repr

/-- `DatabaseContext::create(...)`: the native constructor returns a fresh
reference-counted object whose `use_count` starts at one. -/
def newNativeObject (s : Heap) : NativeRef × Heap :=
  (s.nextRef,
   { blocks := s.blocks
     refcount := fun r => if r = s.nextRef then 1 else s.refcount r
     nextAddr := s.nextAddr
     nextRef := s.nextRef + 1 })

/-- `get_database_context` (bindings.cpp:827): returns null for a null
context; throws if the `database` field cannot be found (`fieldOk = false`,
"should never happen"); returns the cached shared database if the `database`
field is non-zero; otherwise creates the database context, wraps it, stores
the handle in the `database` field and returns the database. If the wrap
allocation fails (`allocOk = false`) the only consequence is that the
`database` field stays 0 and the `DatabaseContext` is not cached
(bindings.cpp:844). -/
def get_database_context (s : Heap) (context : Option JContext)
    (fieldOk allocOk : Bool) :
    Except String (Option NativeRef × Heap × Option JContext) :=
  match context with
  | none => .ok (none, s, none)
  | some ctx =>
      if fieldOk = false then .error "Context.database field not found."
      else if ctx.database ≠ 0 then
        .ok (unwrap_shared_ptr s ctx.database, s, some ctx)
      else
        let nr := newNativeObject s
        let ws := wrap_shared_ptr nr.2 nr.1 allocOk
        .ok (some nr.1, ws.2, some { ctx with database := ws.1 })

/-! ### Formatting (`SharedPointer.format`) -/

/-- The formatting conventions of the Java `ReferencingFormat.Convention`
enumeration (the `Format_*` constants of the generated
`org_osgeo_proj_ReferencingFormat.h` header); `UNKNOWN` stands for any
`jint` that is none of the nine known constants (the `default:` case of the
switch in bindings.cpp:1640). -/
inductive Convention where
  | WKT2_2019
  | WKT2_2015
  | WKT2_2019_SIMPLIFIED
  | WKT2_2015_SIMPLIFIED
  | WKT1_ESRI
  | WKT1_GDAL
  | PROJ_5
  | PROJ_4
  | JSON
  | UNKNOWN (code : Int)
  deriving DecidableEq, Repr

/-- The local `enum format {WKT, PROJ, JSON}` of
`Java_org_osgeo_proj_SharedPointer_format` (bindings.cpp:1633). -/
inductive FormatKind where
  | WKT
  | PROJ
  | JSON
  deriving DecidableEq, Repr

/-- The `f` component of the switch on the convention (bindings.cpp:1640):
each known convention selects one of the three output grammars, an unknown
code falls to the `default:` case (`none`). The `c` component (the exact
WKT/PROJ dialect passed to the formatter) only configures the formatter and
does not affect the null-vs-throw control flow modelled here. -/
def format_kind : Convention → Option FormatKind
  | .WKT2_2019 => some .WKT
  | .WKT2_2015 => some .WKT
  | .WKT2_2019_SIMPLIFIED => some .WKT
  | .WKT2_2015_SIMPLIFIED => some .WKT
  | .WKT1_ESRI => some .WKT
  | .WKT1_GDAL => some .WKT
  | .PROJ_5 => some .PROJ
  | .PROJ_4 => some .PROJ
  | .JSON => some .JSON
  | .UNKNOWN _ => none

/-- A wrapped PROJ object as seen by `format`: whether the three
`dynamic_pointer_cast` checks to `IWKTExportable`, `IJSONExportable` and
`IPROJStringExportable` succeed, and the outcome of each export call
(`Except.error` models the export throwing a C++ exception). -/
structure FormattableObject where
  wktExportable : Bool
  jsonExportable : Bool
  projExportable : Bool
  exportToWKT : Except String String
  exportToJSON : Except String String
  exportToPROJString : Except String String
  deriving Repr

/-- `non_empty_string` (bindings.cpp:334): null for the empty string. -/
def non_empty_string (text : String) : Option String :=
  if text.isEmpty then none else some text

/-- Whether the object supports the requested output grammar: the
`dynamic_pointer_cast` of the corresponding `case` succeeds. -/
def supportsGrammar (o : FormattableObject) : FormatKind → Bool
  | .WKT => o.wktExportable
  | .JSON => o.jsonExportable
  | .PROJ => o.projExportable

/-- `Java_org_osgeo_proj_SharedPointer_format` (bindings.cpp:1630): maps the
convention to a grammar (unknown conventions throw
`IllegalArgumentException`); unwraps the object (`object = none` models a
zero `ptr` field, whose `std::invalid_argument` is caught and rethrown as
`UnformattableObjectException`); then, per grammar, checks exportability —
if the cast fails it BREAKS and returns null with no exception — and
otherwise exports, rethrowing an export failure as
`UnformattableObjectException`. `indentation`, `multiline` and `strict`
only configure the formatter and do not affect this control flow. -/
def Java_org_osgeo_proj_SharedPointer_format (env : JNIEnvState)
    (object : Option FormattableObject) (convention : Convention)
    (indentation : Int) (multiline strict : Bool) :
    Option String × JNIEnvState :=
  match format_kind convention with
  | none => (none, throwNew env JPJ_ILLEGAL_ARGUMENT_EXCEPTION "unknown convention")
  | some f =>
      match object with
      | none =>
          (none, rethrow_as_java_exception env JPJ_UNFORMATTABLE_EXCEPTION
            "Null pointer to PROJ object.")
      | some o =>
          match f with
          | .WKT =>
              if o.wktExportable then
                match o.exportToWKT with
                | .ok text => (non_empty_string text, env)
                | .error e =>
                    (none, rethrow_as_java_exception env JPJ_UNFORMATTABLE_EXCEPTION e)
              else (none, env)
          | .JSON =>
              if o.jsonExportable then
                match o.exportToJSON with
                | .ok text => (non_empty_string text, env)
                | .error e =>
                    (none, rethrow_as_java_exception env JPJ_UNFORMATTABLE_EXCEPTION e)
              else (none, env)
          | .PROJ =>
              if o.projExportable then
                match o.exportToPROJString with
                | .ok text => (non_empty_string text, env)
                | .error e =>
                    (none, rethrow_as_java_exception env JPJ_UNFORMATTABLE_EXCEPTION e)
              else (none, env)

/-- Modelled from the spec: the managed `format` entry point of the Java
layer (class `org.osgeo.proj.IdentifiableObject` / `ReferencingFormat`,
which is not under `src/` — only its machine-generated native declarations
`org_osgeo_proj_SharedPointer.h` are). Per the spec, `format` "raises
UnformattableObject if the object does not support the requested grammar"
and "never \x7ba\x7d silent null substituting for failure": the managed
method invokes the native `format`, propagates a pending managed failure,
and translates a null native result with no pending failure into an
`UnformattableObjectException`. -/
def IdentifiableObject_format (env : JNIEnvState)
    (object : Option FormattableObject) (convention : Convention)
    (indentation : Int) (multiline strict : Bool) :
    Except JavaThrowable String :=
  let rs := Java_org_osgeo_proj_SharedPointer_format env object convention
    indentation multiline strict
  match rs.2.pending with
  | some t => .error t
  | none =>
      match rs.1 with
      | some text => .ok text
      | none => .error (.generic JPJ_UNFORMATTABLE_EXCEPTION
          "Can not format the given object.")

/-! ### Compound CRS dimension and axis lookups (depth-guarded recursion) -/

/-- A coordinate system axis (identified by its address). -/
abbrev Axis := Nat

/-- A CRS as seen by the dimension/axis lookups: a `SingleCRS` with its
coordinate system (`none` models a null `coordinateSystem()`), a `BoundCRS`
with its base CRS, a `CompoundCRS` with its component list, or any other
CRS kind. -/
inductive CRS where
  | single (cs : Option (List Axis))
  | bound (base : CRS)
  | compound (comps : List CRS)
  | other
  deriving Repr

/-- `componentReferenceSystems()` of a compound CRS. -/
def components : CRS → List CRS
  | .compound comps => comps
  | _ => []

/-- `as_single_crs` (bindings.cpp:1803): the CRS cast to `SingleCRS`, or, if
it is a `BoundCRS`, its base CRS cast to `SingleCRS`; null otherwise. The
result is represented by the single CRS's coordinate system. -/
def as_single_crs : CRS → Option (Option (List Axis))
  | .single cs => some cs
  | .bound (.single cs) => some cs
  | _ => none

/-- `get_axes` (bindings.cpp:1843): the axes of a single CRS, or a thrown
`std::invalid_argument` if it has no coordinate system. -/
def get_axes : Option (List Axis) → Except String (List Axis)
  | some axes => .ok axes
  | none => .error "Unspecified coordinate system."

/-- `as_compound_crs` (bindings.cpp:1824): increments the caller's depth
counter (`++depth`, modelled by the second component of the result) and
throws once the incremented depth reaches the arbitrary limit of 10;
otherwise casts to `CompoundCRS` or throws. -/
def as_compound_crs (crs : CRS) (depth : Nat) : Except String (CRS × Nat) :=
  if depth + 1 ≥ 10 then .error "Too many nesting of compound CRS."
  else
    match crs with
    | .compound comps => .ok (.compound comps, depth + 1)
    | _ => .error "Not a recognized CRS type."

mutual

/-- `get_dimension` (bindings.cpp:1860): the number of dimensions of a CRS —
the axis count of a single CRS, or the sum over the components of a
compound CRS, recursing with the incremented depth counter. -/
def get_dimension (crs : CRS) (depth : Nat) : Except String Nat :=
  match as_single_crs crs with
  | some cs =>
      match get_axes cs with
      | .ok axes => .ok axes.length
      | .error e => .error e
  | none =>
      match h : as_compound_crs crs depth with
      | .error e => .error e
      | .ok cd => sum_dimensions (components cd.1) cd.2
termination_by (10 - depth, 0)
decreasing_by
  have hh : cd.2 = depth + 1 ∧ depth + 1 ≤ 9 := by
    unfold as_compound_crs at h
    by_cases hd : depth + 1 ≥ 10
    · rw [if_pos hd] at h
      exact absurd h (by simp)
    · rw [if_neg hd] at h
      cases crs with
      | compound comps =>
          simp only [Except.ok.injEq] at h
          subst h
          exact ⟨rfl, by omega⟩
      | single cs => exact absurd h (by simp)
      | bound base => exact absurd h (by simp)
      | other => exact absurd h (by simp)
  apply Prod.Lex.left
  omega

/-- The `for (CRSNNPtr component : ...) n += get_dimension(component, depth)`
loop of `get_dimension`. -/
def sum_dimensions (comps : List CRS) (depth : Nat) : Except String Nat :=
  match comps with
  | [] => .ok 0
  | c :: rest =>
      match get_dimension c depth with
      | .error e => .error e
      | .ok n =>
          match sum_dimensions rest depth with
          | .error e => .error e
          | .ok m => .ok (n + m)
termination_by (10 - depth, comps.length + 1)
decreasing_by
  · apply Prod.Lex.right
    first
    | omega
    | (simp only [List.length_cons]; omega)
  · apply Prod.Lex.right
    first
    | omega
    | (simp only [List.length_cons]; omega)

end

mutual

/-- `get_axis` (bindings.cpp:1888): the axis at the given (zero-based)
dimension of a compound CRS, walking its components; the updated `dimension`
(an `int&` in C++) is the second component of the result. -/
def get_axis (crs : CRS) (dimension : Nat) (depth : Nat) :
    Except String (Option Axis × Nat) :=
  get_axis_loop crs (components crs) dimension depth
termination_by (10 - depth, (components crs).length + 1)
decreasing_by
  apply Prod.Lex.right
  first
  | omega
  | (simp only [List.length_cons]; omega)

/-- The component loop of `get_axis`. For a single component, either the
requested dimension falls among its axes or the axis count is subtracted
from `dimension`. For a non-single component the code calls
`as_compound_crs(crs, depth)` on the OUTER compound `crs` — not on the
component — and recurses on that same compound with the incremented depth
(which the depth limit of 10 eventually stops); after an axis-less return
the `depth--` cancels the increment and the loop resumes with the original
depth. -/
def get_axis_loop (crs : CRS) (comps : List CRS) (dimension : Nat) (depth : Nat) :
    Except String (Option Axis × Nat) :=
  match comps with
  | [] => .ok (none, dimension)
  | component :: rest =>
      match as_single_crs component with
      | some cs =>
          match get_axes cs with
          | .error e => .error e
          | .ok axes =>
              if hlt : dimension < axes.length then
                .ok (some (axes.get ⟨dimension, hlt⟩), dimension)
              else get_axis_loop crs rest (dimension - axes.length) depth
      | none =>
          match h : as_compound_crs crs depth with
          | .error e => .error e
          | .ok cd =>
              match get_axis cd.1 dimension cd.2 with
              | .error e => .error e
              | .ok (some axis, dimension1) => .ok (some axis, dimension1)
              | .ok (none, dimension1) => get_axis_loop crs rest dimension1 depth
termination_by (10 - depth, comps.length)
decreasing_by
  · apply Prod.Lex.right
    first
    | omega
    | (simp only [List.length_cons]; omega)
  · have hh : cd.2 = depth + 1 ∧ depth + 1 ≤ 9 := by
      unfold as_compound_crs at h
      by_cases hd : depth + 1 ≥ 10
      · rw [if_pos hd] at h
        exact absurd h (by simp)
      · rw [if_neg hd] at h
        cases crs with
        | compound comps =>
            simp only [Except.ok.injEq] at h
            subst h
            exact ⟨rfl, by omega⟩
        | single cs => exact absurd h (by simp)
        | bound base => exact absurd h (by simp)
        | other => exact absurd h (by simp)
    apply Prod.Lex.left
    omega
  · apply Prod.Lex.right
    first
    | omega
    | (simp only [List.length_cons]; omega)

end

/-! ### Coordinate transform (`Transform.transform`) -/

/-- A native `PJ` transform object: the claim-relevant state is its sticky
error number (read by `proj_errno`, cleared by `proj_errno_reset`). -/
structure PJ where
  errno : Int
  deriving DecidableEq, Repr

/-- The coordinate array; the numeric content is opaque to the claim. -/
abbrev Coords := List Int

/-- `Java_org_osgeo_proj_Transform_transform` (bindings.cpp:2613): does
nothing if the wrapped `PJ` is null or if `GetPrimitiveArrayCritical`
returned null (`coordinates = none`). Otherwise it runs
`proj_trans_generic` (the external PROJ call, modelled by the oracle
`trans`, which rewrites the coordinates and sets the `PJ`'s errno), releases
the array, and reads `proj_errno`: on a non-zero error it first calls
`proj_errno_reset(pj)` and then throws a `TransformException` built from
`proj_errno_string(err)` (modelled by `errnoString`). The
`dimension`/`offset`/`numPts` arguments and the `isCopy` logging branch do
not affect this control flow and are absorbed into the oracle. -/
def Java_org_osgeo_proj_Transform_transform (env : JNIEnvState) (pj : Option PJ)
    (trans : PJ → Coords → PJ × Coords) (errnoString : Int → String)
    (coordinates : Option Coords) :
    Option PJ × JNIEnvState × Option Coords :=
  match pj with
  | none => (none, env, coordinates)
  | some p =>
      match coordinates with
      | none => (some p, env, none)
      | some data =>
          let tr := trans p data
          let err := tr.1.errno
          if err ≠ 0 then
            (some { tr.1 with errno := 0 },
             throwNew env JPJ_TRANSFORM_EXCEPTION (errnoString err),
             some tr.2)
          else (some tr.1, env, some tr.2)

/-! ### Helper lemmas -/

/-! ### Basic lemmas about the block list -/

theorem lookupBlock_removeBlock_self (bs : List (Handle × NativeRef)) (ptr : Handle)
    (hnd : (bs.map Prod.fst).Nodup) :
    lookupBlock (removeBlock bs ptr) ptr = none := by
  induction bs with
  | nil => simp [removeBlock, lookupBlock]
  | cons hd tl ih =>
      obtain ⟨a, r⟩ := hd
      simp only [List.map_cons, List.nodup_cons] at hnd
      by_cases h : a = ptr
      · subst h
        simp only [removeBlock, if_pos rfl]
        -- `ptr` does not occur among the remaining keys
        have : ∀ bs2 : List (Handle × NativeRef), a ∉ bs2.map Prod.fst →
            lookupBlock bs2 a = none := by
          intro bs2
          induction bs2 with
          | nil => intro _; rfl
          | cons hd2 tl2 ih2 =>
              obtain ⟨a2, r2⟩ := hd2
              intro hmem
              simp only [List.map_cons, List.mem_cons] at hmem
              push_neg at hmem
              simp only [lookupBlock]
              rw [if_neg (fun hh => hmem.1 hh.symm)]
              exact ih2 hmem.2
        exact this tl hnd.1
      · simp only [removeBlock, if_neg h, lookupBlock, if_neg h]
        exact ih hnd.2

theorem refines_any (t : Tag) : refines t .ANY = true := by
  cases t <;> decide

theorem as_compound_crs_ok {crs : CRS} {depth : Nat} {cd : CRS × Nat}
    (h : as_compound_crs crs depth = .ok cd) : cd.2 = depth + 1 ∧ depth + 1 ≤ 9 := by
  unfold as_compound_crs at h
  by_cases hd : depth + 1 ≥ 10
  · rw [if_pos hd] at h
    exact absurd h (by simp)
  · rw [if_neg hd] at h
    cases crs with
    | compound comps =>
        simp only [Except.ok.injEq] at h
        subst h
        exact ⟨rfl, by omega⟩
    | single cs => exact absurd h (by simp)
    | bound base => exact absurd h (by simp)
    | other => exact absurd h (by simp)

/-! ### The claims -/

/-- C1: for every native reference `x` for which `wrap_shared_ptr` succeeds
(returns a non-zero handle `h`), `unwrap_shared_ptr` at `h` returns the very
shared reference `x` stored by `wrap_shared_ptr`, the native use count of `x`
has been increased by exactly one, and every other indirection block and its
stored reference are untouched (`unwrap_shared_ptr` itself is a pure read of
the heap, so it consumes nothing and modifies no block). -/
theorem wrap_unwrap_roundtrip (s : Heap) (x : NativeRef) (allocOk : Bool)
    (h : (wrap_shared_ptr s x allocOk).1 ≠ 0) :
    unwrap_shared_ptr (wrap_shared_ptr s x allocOk).2 (wrap_shared_ptr s x allocOk).1 = some x
    ∧ (wrap_shared_ptr s x allocOk).2.refcount x = s.refcount x + 1
    ∧ ∀ p : Handle, p ≠ (wrap_shared_ptr s x allocOk).1 →
        lookupBlock (wrap_shared_ptr s x allocOk).2.blocks p = lookupBlock s.blocks p := by
  cases allocOk with
  | false => simp [wrap_shared_ptr] at h
  | true =>
      refine ⟨?_, ?_, ?_⟩
      · simp [wrap_shared_ptr, unwrap_shared_ptr, lookupBlock]
      · simp [wrap_shared_ptr]
      · intro p hp
        simp only [wrap_shared_ptr, if_pos rfl] at hp ⊢
        simp only [lookupBlock]
        rw [if_neg (fun hh => hp hh.symm)]

theorem wrap_unwrap_roundtrip_witness :
    (wrap_shared_ptr ⟨[], fun _ => 1, 5, 9⟩ 7 true).1 ≠ 0
    ∧ unwrap_shared_ptr (wrap_shared_ptr ⟨[], fun _ => 1, 5, 9⟩ 7 true).2
        (wrap_shared_ptr ⟨[], fun _ => 1, 5, 9⟩ 7 true).1 = some 7 := by
  refine ⟨by decide, ?_⟩
  exact (wrap_unwrap_roundtrip ⟨[], fun _ => 1, 5, 9⟩ 7 true (by decide)).1

/-- C2: `release` is idempotent. For a zero handle `release_shared_ptr` is a
no-op. For a live handle it clears the stored reference (decrementing the
native use count by one) and frees the block exactly once (the block is gone
afterwards). At the public interface (`SharedPointer.release`), the handle
field is read and zeroed by the first release, so a second release on the
same wrapper is a complete no-op. -/
theorem release_idempotent (s : Heap) (object : JavaWrapper) (r : NativeRef)
    (hnd : (s.blocks.map Prod.fst).Nodup)
    (hlive : lookupBlock s.blocks object.ptrField = some r)
    (hnz : object.ptrField ≠ 0) :
    release_shared_ptr s 0 = s
    ∧ lookupBlock (Java_org_osgeo_proj_SharedPointer_release s object).1.blocks
        object.ptrField = none
    ∧ (Java_org_osgeo_proj_SharedPointer_release s object).1.refcount r = s.refcount r - 1
    ∧ (Java_org_osgeo_proj_SharedPointer_release s object).2.ptrField = 0
    ∧ Java_org_osgeo_proj_SharedPointer_release
        (Java_org_osgeo_proj_SharedPointer_release s object).1
        (Java_org_osgeo_proj_SharedPointer_release s object).2
      = Java_org_osgeo_proj_SharedPointer_release s object := by
  refine ⟨rfl, ?_, ?_, ?_, ?_⟩
  · simp only [Java_org_osgeo_proj_SharedPointer_release, get_and_clear_ptr,
      release_shared_ptr, if_neg hnz, hlive]
    exact lookupBlock_removeBlock_self s.blocks object.ptrField hnd
  · simp [Java_org_osgeo_proj_SharedPointer_release, get_and_clear_ptr,
      release_shared_ptr, if_neg hnz, hlive]
  · rfl
  · simp [Java_org_osgeo_proj_SharedPointer_release, get_and_clear_ptr, release_shared_ptr]

theorem release_idempotent_witness :
    lookupBlock
      (Java_org_osgeo_proj_SharedPointer_release ⟨[(5, 7)], fun _ => 1, 6, 9⟩ ⟨5⟩).1.blocks 5
      = none
    ∧ (Java_org_osgeo_proj_SharedPointer_release ⟨[(5, 7)], fun _ => 1, 6, 9⟩ ⟨5⟩).1.refcount 7
      = 0 := by
  have h := release_idempotent ⟨[(5, 7)], fun _ => 1, 6, 9⟩ ⟨5⟩ 7
    (by decide) (by decide) (by decide)
  exact ⟨h.2.1, h.2.2.1⟩

/-- C3: if managed wrapper construction fails (the `wrapGeodeticObject` call
throws or returns null) after a new indirection block was allocated for the
native object, the block is released before returning: the function returns
null, the set of live indirection blocks is exactly what it was before the
call, and the native reference count of every object returns to its
pre-call value — no orphaned indirection block remains. -/
theorem specific_subclass_rollback (cb : JavaCallbacks) (env : JNIEnvState) (s : Heap)
    (object : NativeRef) (caps : Caps) (type : Tag)
    (henv : env.pending = none)
    (hfw : cb.findWrapper object = (none, none))
    (hwf : 0 < s.nextAddr)
    (hfail : (cb.wrapGeodeticObject (resolve caps type) s.nextAddr).1.isSome = true
           ∨ (cb.wrapGeodeticObject (resolve caps type) s.nextAddr).2 = none) :
    (specific_subclass cb env s object caps type true).1 = none
    ∧ (specific_subclass cb env s object caps type true).2.2.blocks = s.blocks
    ∧ ∀ r : NativeRef,
        (specific_subclass cb env s object caps type true).2.2.refcount r = s.refcount r := by
  have hnz : s.nextAddr ≠ 0 := Nat.pos_iff_ne_zero.mp hwf
  have hw : wrap_shared_ptr s object true
      = (s.nextAddr,
         { blocks := (s.nextAddr, object) :: s.blocks
           refcount := fun r => if r = object then s.refcount r + 1 else s.refcount r
           nextAddr := s.nextAddr + 1
           nextRef := s.nextRef }) := rfl
  have hcond : ((cb.wrapGeodeticObject (resolve caps type) s.nextAddr).1.isSome
      || (cb.wrapGeodeticObject (resolve caps type) s.nextAddr).2.isNone) = true := by
    rcases hfail with h | h
    · simp [h]
    · simp [h]
  refine ⟨?_, ?_, ?_⟩
  · simp [specific_subclass, hfw, henv, hw, hnz, hcond, Option.orElse]
  · simp [specific_subclass, hfw, henv, hw, hnz, hcond, Option.orElse,
      release_shared_ptr, lookupBlock, removeBlock]
  · intro r
    simp only [specific_subclass, hfw, henv, hw, Option.orElse]
    simp [hnz, hcond, release_shared_ptr, lookupBlock, removeBlock]
    by_cases hr : r = object
    · subst hr; simp
    · simp [hr]

theorem specific_subclass_rollback_witness :
    (specific_subclass
        ⟨fun _ => (none, none), fun _ _ => (none, none)⟩
        ⟨none, fun _ => true⟩ ⟨[], fun _ => 1, 5, 9⟩ 7 ⟨false, false, false, false,
          false, false, false, false, false, false, false, false, false, false,
          false, false, false, false, false, false, false, false, false, false,
          false, false, false, false, false⟩ .ANY true).2.2.blocks = [] := by
  exact (specific_subclass_rollback
    ⟨fun _ => (none, none), fun _ _ => (none, none)⟩
    ⟨none, fun _ => true⟩ ⟨[], fun _ => 1, 5, 9⟩ 7 _ .ANY rfl rfl (by decide)
    (Or.inr rfl)).2.1

/-- C4: whenever a native object crosses into managed territory through
`specific_subclass`, the identity cache `findWrapper` is consulted first with
the object's native identity (the raw pointer); if an existing wrapper is
found it is returned unchanged and neither the JNI environment nor the heap
is touched — no new indirection block is allocated. Since `findWrapper` is a
function of the native identity, two calls resolving the same native
identity return the same wrapper instance. -/
theorem specific_subclass_identity_cache (cb : JavaCallbacks) (env : JNIEnvState)
    (s : Heap) (object : NativeRef) (caps : Caps) (type : Tag) (allocOk : Bool)
    (w : JRef)
    (henv : env.pending = none)
    (hfw : cb.findWrapper object = (none, some w)) :
    specific_subclass cb env s object caps type allocOk = (some w, env, s) := by
  obtain ⟨p, ck⟩ := env
  simp only at henv
  subst henv
  simp [specific_subclass, hfw, Option.orElse]

theorem specific_subclass_identity_cache_witness :
    specific_subclass
        ⟨fun _ => (none, some 42), fun _ _ => (none, none)⟩
        ⟨none, fun _ => true⟩ ⟨[], fun _ => 1, 5, 9⟩ 7 ⟨false, false, false, false,
          false, false, false, false, false, false, false, false, false, false,
          false, false, false, false, false, false, false, false, false, false,
          false, false, false, false, false⟩ .ANY true
      = (some 42, ⟨none, fun _ => true⟩, ⟨[], fun _ => 1, 5, 9⟩)
    ∧ specific_subclass
        ⟨fun _ => (none, some 42), fun _ _ => (none, none)⟩
        ⟨none, fun _ => true⟩ ⟨[(3, 7)], fun _ => 2, 6, 9⟩ 7 ⟨false, false, false,
          false, false, false, false, false, false, false, false, false, false,
          false, false, false, false, false, false, false, false, false, false,
          false, false, false, false, false, false⟩ .DATUM false
      = (some 42, ⟨none, fun _ => true⟩, ⟨[(3, 7)], fun _ => 2, 6, 9⟩) :=
  ⟨specific_subclass_identity_cache _ _ _ 7 _ .ANY true 42 rfl rfl,
   specific_subclass_identity_cache _ _ _ 7 _ .DATUM false 42 rfl rfl⟩

/-- C5: the type resolver is a total function (the recursive re-entry of the
cascade happens only from the `ANY` case with a strictly smaller measure, so
`resolve` terminates for every input), and it is monotonic: the resolved tag
is always inside the subtree of the coarse tag it was given — in particular
`resolve caps ANY` is a valid refinement of `ANY`, and resolving with a
non-`ANY` coarse tag never escapes that tag's subtree (`GEOCENTRIC_CRS` is
produced only inside the geodetic branch of the CRS case, and
`refines GEOCENTRIC_CRS COORDINATE_REFERENCE_SYSTEM` holds through
`GEODETIC_CRS`). -/
theorem resolve_refines (caps : Caps) (type : Tag) :
    refines (resolve caps type) type = true := by
  have hstep : ∀ t : Tag, refines (resolveStep caps t) t = true := by
    intro t
    cases t <;> (simp only [resolveStep]; first
      | rfl
      | (split_ifs <;> rfl))
  cases type with
  | ANY => exact refines_any _
  | _ => (simp only [resolve]; exact hstep _)

/-- C6 counterexample: the claim says that EVERY path converting a native
failure into a managed exception preserves an already-pending managed
failure. The specialized `NoSuchAuthorityCodeException` translator
(bindings.cpp:2330) performs no pending check: called while a managed
failure is pending, it replaces that failure with the newly built exception,
so the first pending failure is NOT preserved. -/
theorem rethrow_noSuchAuthorityCode_masks_pending :
    (rethrow_as_java_exception_noSuchAuthorityCode
        ⟨some (.generic "org/opengis/util/FactoryException" "first failure"), fun _ => true⟩
        ⟨"no such code", "EPSG", "999999"⟩).pending
      ≠ some (.generic "org/opengis/util/FactoryException" "first failure") := by
  simp [rethrow_as_java_exception_noSuchAuthorityCode]

/-- C6 (amended): the generic exception translator
`rethrow_as_java_exception` never raises when a managed failure is already
pending — it leaves the environment, and therefore the first pending
failure, completely unchanged. The specialized `NoSuchAuthorityCodeException`
translator, by contrast, performs no pending check and raises
unconditionally, so only the generic translation paths preserve the first
pending failure. -/
theorem rethrow_preserves_pending (env : JNIEnvState) (type e : String)
    (t : JavaThrowable) (hp : env.pending = some t) :
    rethrow_as_java_exception env type e = env
    ∧ ∀ x : NoSuchAuthorityCodeException,
        env.classKnown JPJ_NO_SUCH_AUTHORITY_CODE = true →
        (rethrow_as_java_exception_noSuchAuthorityCode env x).pending
          = some (.noSuchAuthorityCode x.message x.authority x.code) := by
  constructor
  · simp [rethrow_as_java_exception, hp]
  · intro x hc
    simp [rethrow_as_java_exception_noSuchAuthorityCode, hc]

theorem rethrow_preserves_pending_witness :
    rethrow_as_java_exception
        ⟨some (.generic "org/opengis/util/FactoryException" "first failure"), fun _ => true⟩
        "java/lang/RuntimeException" "second failure"
      = ⟨some (.generic "org/opengis/util/FactoryException" "first failure"), fun _ => true⟩ :=
  (rethrow_preserves_pending
    ⟨some (.generic "org/opengis/util/FactoryException" "first failure"), fun _ => true⟩
    "java/lang/RuntimeException" "second failure"
    (.generic "org/opengis/util/FactoryException" "first failure") rfl).1

/-- C7: for any context whose database has not been created yet, two
successive `get_database_context` calls with no intervening `destroyPJ`
return identity-equal shared database references: the first call creates
the database context and caches its (non-zero) handle in the context's
`database` field, and the second call returns exactly the cached reference
without creating anything — the heap and the context are returned unchanged
by the second call. -/
theorem get_database_context_caches (s : Heap) (ctx : JContext)
    (hwf : 0 < s.nextAddr) (h0 : ctx.database = 0) :
    ∃ (db : NativeRef) (s1 : Heap) (ctx1 : JContext),
      get_database_context s (some ctx) true true = .ok (some db, s1, some ctx1)
      ∧ ctx1.database ≠ 0
      ∧ get_database_context s1 (some ctx1) true true
          = .ok (some db, s1, some ctx1) := by
  have hnz : s.nextAddr ≠ 0 := Nat.pos_iff_ne_zero.mp hwf
  refine ⟨s.nextRef,
    { blocks := (s.nextAddr, s.nextRef) :: s.blocks
      refcount := fun r => if r = s.nextRef then
          (if r = s.nextRef then 1 else s.refcount r) + 1
        else (if r = s.nextRef then 1 else s.refcount r)
      nextAddr := s.nextAddr + 1
      nextRef := s.nextRef + 1 },
    { ptr := ctx.ptr, database := s.nextAddr }, ?_, hnz, ?_⟩
  · simp only [get_database_context, Bool.true_eq_false, if_false, h0, ne_eq,
      not_true_eq_false, if_neg, newNativeObject, wrap_shared_ptr]
    simp
  · simp only [get_database_context, Bool.true_eq_false, if_false]
    rw [if_pos hnz]
    simp [unwrap_shared_ptr, lookupBlock]

theorem get_database_context_caches_witness :
    ∃ (db : NativeRef) (s1 : Heap) (ctx1 : JContext),
      get_database_context ⟨[], fun _ => 0, 5, 9⟩ (some ⟨3, 0⟩) true true
        = .ok (some db, s1, some ctx1)
      ∧ ctx1.database ≠ 0
      ∧ get_database_context s1 (some ctx1) true true
          = .ok (some db, s1, some ctx1) :=
  get_database_context_caches ⟨[], fun _ => 0, 5, 9⟩ ⟨3, 0⟩ (by decide) rfl

/-- C8: for every wrapped object and every valid formatting convention, if
the object does not support the requested output grammar (the cast to the
corresponding exportable interface fails), the managed `format` raises
`UnformattableObject` rather than returning a null result: the native
function returns null with no pending exception, and the managed layer
translates that into an `UnformattableObjectException`. -/
theorem format_raises_unformattable (env : JNIEnvState) (o : FormattableObject)
    (convention : Convention) (indentation : Int) (multiline strict : Bool)
    (f : FormatKind)
    (henv : env.pending = none)
    (hconv : format_kind convention = some f)
    (hunsup : supportsGrammar o f = false) :
    IdentifiableObject_format env (some o) convention indentation multiline strict
      = .error (.generic JPJ_UNFORMATTABLE_EXCEPTION
          "Can not format the given object.") := by
  cases f <;>
    simp_all [IdentifiableObject_format, Java_org_osgeo_proj_SharedPointer_format,
      hconv, supportsGrammar]

theorem format_raises_unformattable_witness :
    IdentifiableObject_format ⟨none, fun _ => true⟩
        (some ⟨false, false, false, .ok "WKT", .ok "JSON", .ok "PROJ"⟩)
        .WKT2_2019 (-1) true false
      = .error (.generic JPJ_UNFORMATTABLE_EXCEPTION
          "Can not format the given object.") :=
  format_raises_unformattable ⟨none, fun _ => true⟩
    ⟨false, false, false, .ok "WKT", .ok "JSON", .ok "PROJ"⟩
    .WKT2_2019 (-1) true false .WKT rfl rfl rfl

/-- C9: the recursive dimension and axis lookups terminate for every input
(the definitions above are accepted with the strictly decreasing measure
`10 - depth`): each recursion step into a compound CRS goes through
`as_compound_crs`, which increments the depth counter by exactly one and
keeps it below 10, and once the incremented depth would reach 10 the lookup
is rejected with the "too many nesting" exception instead of recursing
further — for `as_compound_crs` itself, for `get_dimension` on any
non-single CRS, and for the `get_axis` loop on any non-single component. -/
theorem recursion_depth_guard :
    (∀ (crs : CRS) (d : Nat) (cd : CRS × Nat),
        as_compound_crs crs d = .ok cd → cd.2 = d + 1 ∧ d + 1 ≤ 9)
    ∧ (∀ (crs : CRS) (d : Nat), 9 ≤ d →
        as_compound_crs crs d = .error "Too many nesting of compound CRS.")
    ∧ (∀ (crs : CRS) (d : Nat), 9 ≤ d → as_single_crs crs = none →
        get_dimension crs d = .error "Too many nesting of compound CRS.")
    ∧ (∀ (outer component : CRS) (rest : List CRS) (dim d : Nat), 9 ≤ d →
        as_single_crs component = none →
        get_axis_loop outer (component :: rest) dim d
          = .error "Too many nesting of compound CRS.") := by
  have herr : ∀ (crs : CRS) (d : Nat), 9 ≤ d →
      as_compound_crs crs d = .error "Too many nesting of compound CRS." := by
    intro crs d hd
    unfold as_compound_crs
    rw [if_pos (by omega)]
  refine ⟨fun _ _ _ h => as_compound_crs_ok h, herr, ?_, ?_⟩
  · intro crs d hd hsingle
    rw [get_dimension]
    rw [hsingle, herr crs d hd]
  · intro outer component rest dim d hd hsingle
    rw [get_axis_loop]
    rw [hsingle, herr outer d hd]

theorem recursion_depth_guard_witness :
    get_dimension (CRS.compound [CRS.compound [CRS.other]]) 9
      = .error "Too many nesting of compound CRS."
    ∧ get_axis_loop CRS.other [CRS.compound [], CRS.single (some [1])] 0 9
      = .error "Too many nesting of compound CRS." :=
  ⟨recursion_depth_guard.2.2.1 (CRS.compound [CRS.compound [CRS.other]]) 9
      (by decide) rfl,
   recursion_depth_guard.2.2.2 CRS.other (CRS.compound []) [CRS.single (some [1])]
      0 9 (by decide) rfl⟩

/-- C10: when the native transform reports a non-zero error code, the
transform operation resets the native error state (`proj_errno_reset`)
before raising the managed `TransformException`: the returned `PJ` carries
`errno = 0`, so a failed call leaves no sticky error state that would make
a subsequent transform on the same object report a stale failure. -/
theorem transform_resets_errno (env : JNIEnvState) (p : PJ)
    (trans : PJ → Coords → PJ × Coords) (errnoString : Int → String)
    (data : Coords)
    (herr : (trans p data).1.errno ≠ 0)
    (hclass : env.classKnown JPJ_TRANSFORM_EXCEPTION = true) :
    (Java_org_osgeo_proj_Transform_transform env (some p) trans errnoString
        (some data)).1
      = some { errno := 0 }
    ∧ (Java_org_osgeo_proj_Transform_transform env (some p) trans errnoString
        (some data)).2.1.pending
      = some (.generic JPJ_TRANSFORM_EXCEPTION (errnoString (trans p data).1.errno)) := by
  constructor
  · simp [Java_org_osgeo_proj_Transform_transform, herr]
  · simp [Java_org_osgeo_proj_Transform_transform, herr, throwNew, hclass]

theorem transform_resets_errno_witness :
    (Java_org_osgeo_proj_Transform_transform ⟨none, fun _ => true⟩
        (some ⟨0⟩) (fun p data => (⟨-38⟩, data)) (fun e => toString e)
        (some [1, 2])).1
      = some { errno := 0 } :=
  (transform_resets_errno ⟨none, fun _ => true⟩ ⟨0⟩
    (fun p data => (⟨-38⟩, data)) (fun e => toString e) [1, 2]
    (by decide) rfl).1

end ProjJNI
